import Mathlib

/-!
Verification of the R8it ai-backend core logic: a shallow embedding of
the GPS/EXIF extraction pipeline (src/utils/gps_extractor.py), the
reverse-geocoding client and place-type normalizer
(src/utils/location_service.py), and the vision-guess sanitizer and its
HTTP route (src/routes/image_analysis.py, src/routes/location.py).

Python floats are modelled as rationals (ℚ); fallible operations return
Option/Except; the external libraries (PIL, exifread, geopy, the OpenAI
client, json.loads) are modelled as oracle inputs describing the outcome
of each call, while all repository logic over those outcomes is
translated directly from the source.
-/

/-! ### Generic helpers: Python-style association-list (dict) lookups -/

/-- First-match lookup in an association list keyed by strings, as a
Python dict read (`d[k]` / `d.get(k)`). -/
def alookup {α : Type} : List (String × α) → String → Option α
  | [], _ => none
  | p :: t, k => if p.1 = k then some p.2 else alookup t k

/-- `d.get(k, dflt)` on a string-valued dict. -/
def sget (m : List (String × String)) (k dflt : String) : String :=
  match alookup m k with
  | some v => v
  | none => dflt

/-! ### GPS extractor (src/utils/gps_extractor.py)

Strategy A reads the PIL `_getexif()` dictionary.  We model a decoded
EXIF value reaching `_dms_to_decimal` as `GpsVal`:
`seq xs` is an indexable sequence whose element `i` either converts via
`float` to `xs[i] = some q` or makes `float` raise (`none`);
`str s` is a string value (indexing yields characters, and `float` on a
character succeeds exactly on digits); `other b` is any non-indexable
value with truthiness `b`.  Tag keys are modelled post-decoding (the
source renames numeric EXIF ids via the fixed `TAGS`/`GPSTAGS` tables,
which we take as already applied). -/

inductive GpsVal where
  | seq (xs : List (Option ℚ))
  | str (s : String)
  | other (truthy : Bool)
deriving DecidableEq

/-- Python truthiness of a `GpsVal` (`if lat and lon and ...` in
`_convert_gps_to_decimal`): sequences and strings are truthy when
non-empty. -/
def GpsVal.truthy : GpsVal → Bool
  | .seq xs => !xs.isEmpty
  | .str s => !(s == "")
  | .other t => t

/-- `float(c)` on a one-character string: succeeds exactly on digits. -/
def charFloat (c : Char) : Option ℚ :=
  if c.isDigit then some (((c.toNat - 48 : ℕ) : ℚ)) else none

/-- `float(v[i])`: `none` when indexing or the conversion raises. -/
def floatAtIndex (v : GpsVal) (i : ℕ) : Option ℚ :=
  match v with
  | .seq xs =>
    match xs.get? i with
    | some o => o
    | none => none
  | .str s =>
    match s.data.get? i with
    | some c => charFloat c
    | none => none
  | .other _ => none

/-- The membership test of `_dms_to_decimal` against the fixed
South/West list: only the exact strings "S" and "W" compare equal. -/
def isSouthWest (v : GpsVal) : Bool :=
  match v with
  | .str s => s == "S" || s == "W"
  | _ => false

/-- `_dms_to_decimal(dms, ref)`: `float` the first three elements,
combine as `d + m/60 + s/3600`, negate when the reference is South or
West; any raise inside the `try` yields `None`. -/
def dms_to_decimal (dms ref : GpsVal) : Option ℚ :=
  match floatAtIndex dms 0, floatAtIndex dms 1, floatAtIndex dms 2 with
  | some d, some m, some s =>
    let decimal := d + m / 60 + s / 3600
    some (if isSouthWest ref then -decimal else decimal)
  | _, _, _ => none

/-- The GPS sub-dictionary collected from the `GPSInfo` tag(s):
decoded GPS tag name to value. -/
abbrev GpsInfo := List (String × GpsVal)

/-- The decoded PIL EXIF dictionary: (decoded tag name, value) pairs.
Only values under the tag name `GPSInfo` are ever inspected, so every
value is modelled as a GPS sub-dictionary. -/
abbrev ExifData := List (String × GpsInfo)

/-- Dict assignment `d[k] = v`: overwrite in place or append. -/
def gpsInsert (l : GpsInfo) (k : String) (v : GpsVal) : GpsInfo :=
  if (alookup l k).isSome then
    l.map (fun p => if p.1 = k then (k, v) else p)
  else l ++ [(k, v)]

/-- The tag-collection loop of `extract_gps_from_image`: merge every
`GPSInfo`-tagged sub-dictionary into `gps_info`. -/
def collectGpsInfo (exif : ExifData) : GpsInfo :=
  exif.foldl
    (fun acc p =>
      if p.1 = "GPSInfo" then p.2.foldl (fun a q => gpsInsert a q.1 q.2) acc else acc)
    []

/-- `_convert_gps_to_decimal(gps_info)`: read the four GPS entries,
check all four truthy, convert both axes; any failure yields
`(None, None)`. -/
def convert_gps_to_decimal (gpsInfo : GpsInfo) : Option ℚ × Option ℚ :=
  match alookup gpsInfo ("GPSLatitude"), alookup gpsInfo ("GPSLatitudeRef"),
        alookup gpsInfo ("GPSLongitude"), alookup gpsInfo ("GPSLongitudeRef") with
  | some lat, some latRef, some lon, some lonRef =>
    if lat.truthy && lon.truthy && latRef.truthy && lonRef.truthy then
      (dms_to_decimal lat latRef, dms_to_decimal lon lonRef)
    else (none, none)
  | _, _, _, _ => (none, none)

/-- Strategy A (PIL): returns a coordinate pair only when the EXIF
dictionary exists, the collected GPS sub-dictionary is non-empty, and
both conversions succeed (`lat is not None and lon is not None`). -/
def strategyA (exifOpt : Option ExifData) : Option (ℚ × ℚ) :=
  match exifOpt with
  | none => none
  | some exif =>
    let gpsInfo := collectGpsInfo exif
    if gpsInfo.isEmpty then none
    else
      match convert_gps_to_decimal gpsInfo with
      | (some lat, some lon) => some (lat, lon)
      | _ => none

/-- An exifread tag value: `ratios xs` models a `values` list of
`Ratio(num, den)` objects, `ascii s` a `values` string (the form taken
by the reference tags). -/
inductive BTag where
  | ratios (xs : List (ℤ × ℤ))
  | ascii (s : String)
deriving DecidableEq

/-- `float(r.num) / float(r.den)`: Python raises `ZeroDivisionError`
on a zero denominator, caught by the surrounding `try`. -/
def ratioFloat (r : ℤ × ℤ) : Option ℚ :=
  if r.2 = 0 then none else some ((r.1 : ℚ) / (r.2 : ℚ))

/-- The South/West membership test on the first element of the
reference tag: `none` when indexing raises; a `Ratio` element is never
equal to the string "S" or "W". -/
def refIsSouthWest (ref : BTag) : Option Bool :=
  match ref with
  | .ascii s =>
    match s.data.get? 0 with
    | some c => some (c == 'S' || c == 'W')
    | none => none
  | .ratios xs =>
    match xs.get? 0 with
    | some _ => some false
    | none => none

/-- `_convert_to_degrees(value, ref)`: divide the three
numerator/denominator pairs, combine, negate on a South/West
reference; any raise (missing element, zero denominator, non-`Ratio`
element, empty reference) yields `None`. -/
def convert_to_degrees (value ref : BTag) : Option ℚ :=
  match value with
  | .ascii _ => none
  | .ratios xs =>
    match xs.get? 0, xs.get? 1, xs.get? 2 with
    | some r0, some r1, some r2 =>
      match ratioFloat r0, ratioFloat r1, ratioFloat r2 with
      | some d, some m, some s =>
        let decimal := d + m / 60 + s / 3600
        match refIsSouthWest ref with
        | some b => some (if b then -decimal else decimal)
        | none => none
      | _, _, _ => none
    | _, _, _ => none

/-- The four exifread tags consulted by strategy B (`tags.get(...)`).
An exifread tag object defines no length or truthiness override, so the
`all([...])` check in the source is exactly a presence check. -/
structure BTags where
  lat : Option BTag
  latRef : Option BTag
  lon : Option BTag
  lonRef : Option BTag
deriving DecidableEq

/-- The outcome of the two library calls made on the image bytes:
`pil` is `Image.open` + `_getexif()` (raised with a message, or
returned `None`, or returned a decoded tag dictionary); `exifr` is
`exifread.process_file` (raised, or returned its tag dictionary,
restricted to the four keys the source consults). -/
structure GpsEnv where
  pil : Except String (Option ExifData)
  exifr : Except String BTags

/-- The result dictionary of `extract_gps_from_image`:
`found lat lon` is the dictionary with latitude, longitude and a true
has_gps flag
(the source can place `None` in either coordinate via strategy B),
`notFound err` is the record with a false has_gps flag and error
string `err`. -/
inductive GpsResult where
  | found (latitude longitude : Option ℚ)
  | notFound (error : String)
deriving DecidableEq

/-- Strategy B (exifread): when all four tags are present, return a
found-record from the two conversions without checking that they
succeeded; otherwise report no GPS data. -/
def strategyB (tags : BTags) : GpsResult :=
  match tags.lat, tags.latRef, tags.lon, tags.lonRef with
  | some glat, some glatRef, some glon, some glonRef =>
    .found (convert_to_degrees glat glatRef) (convert_to_degrees glon glonRef)
  | _, _, _, _ => .notFound ("Aucune donnée GPS trouvée dans l\x27image")

/-- `extract_gps_from_image(image_data)`: try strategy A, fall back to
strategy B, and convert any raise inside the `try` (from either
library call) into an error record. -/
def extract_gps_from_image (env : GpsEnv) : GpsResult :=
  match env.pil with
  | .error e => .notFound ("Erreur lors de l\x27extraction GPS: " ++ e)
  | .ok exifOpt =>
    match strategyA exifOpt with
    | some (lat, lon) => .found (some lat) (some lon)
    | none =>
      match env.exifr with
      | .error e => .notFound ("Erreur lors de l\x27extraction GPS: " ++ e)
      | .ok tags => strategyB tags

/-! ### Location service (src/utils/location_service.py) -/

/-- A raw provider dictionary with string values (address components,
or the string-valued fields of the top-level OSM payload). -/
abbrev StrMap := List (String × String)

/-- The fixed OSM-category table `type_mapping` of
`_determine_place_type`. -/
def type_mapping : StrMap :=
  [("restaurant", "restaurant"), ("cafe", "restaurant"), ("fast_food", "restaurant"),
   ("hotel", "hotel"), ("motel", "hotel"), ("hostel", "hotel"),
   ("shop", "magasin"), ("supermarket", "magasin"), ("mall", "magasin"),
   ("tourism", "attraction"), ("attraction", "attraction"), ("museum", "attraction"),
   ("hospital", "service"), ("school", "service"), ("university", "service")]

/-- The base lookup of `_determine_place_type`: the raw `type` first,
then the raw `class`, else `"unknown"`. -/
def basePlaceType (rawData : StrMap) : String :=
  match alookup type_mapping (sget rawData ("type") "") with
  | some v => v
  | none =>
    match alookup type_mapping (sget rawData ("class") "") with
    | some v => v
    | none => "unknown"

/-- The amenity override block of `_determine_place_type`: a truthy
(non-empty) amenity in one of the three fixed lists replaces the base
place type. -/
def amenityOverride (amenity base : String) : String :=
  if amenity ≠ "" then
    if amenity = "restaurant" ∨ amenity = "cafe" ∨ amenity = "fast_food" then ("restaurant")
    else if amenity = "hotel" ∨ amenity = "motel" then ("hotel")
    else if amenity = "shop" ∨ amenity = "supermarket" then ("magasin")
    else base
  else base

/-- Python `str.split` on a comma; splitting the empty string yields a
single empty segment. -/
def splitOnComma : List Char → List (List Char)
  | [] => [[]]
  | a :: as =>
    let r := splitOnComma as
    if a == ',' then [] :: r
    else
      match r with
      | [] => [[a]]
      | h :: t => (a :: h) :: t

/-- The Python whitespace set stripped by `str.strip()`. -/
def isPyWhitespace (c : Char) : Bool :=
  c == ' ' || c == '\t' || c == '\n' || c == '\x0d' || c == '\x0b' || c == '\x0c'

/-- Python `str.strip()`. -/
def pyStrip (s : String) : String :=
  String.mk (((s.data.dropWhile isPyWhitespace).reverse.dropWhile isPyWhitespace).reverse)

/-- The result dictionary of `_determine_place_type`. -/
structure PlaceTypeInfo where
  place_type : String
  place_name : String
  osm_type : String
  osm_class : String
deriving DecidableEq

/-- `_determine_place_type(address_components, raw_data)`: base table
lookup on `type` then `class`, place name from the first comma segment
of `display_name` stripped, then the amenity override. -/
def determine_place_type (addressComponents rawData : StrMap) : PlaceTypeInfo :=
  let osmType := sget rawData ("type") ""
  let osmClass := sget rawData ("class") ""
  let displayNameParts := splitOnComma (sget rawData ("display_name") "").data
  let placeName :=
    match displayNameParts with
    | [] => ""
    | h :: _ => pyStrip (String.mk h)
  { place_type := amenityOverride (sget addressComponents ("amenity") "") (basePlaceType rawData),
    place_name := placeName,
    osm_type := osmType,
    osm_class := osmClass }

/-- The city / town / village fallback chain of
`_extract_address_components` under Python truthiness (an absent key
and an empty value are both falsy). -/
def cityOf (ac : StrMap) : String :=
  let c := sget ac ("city") ""
  if c ≠ "" then c
  else
    let t := sget ac ("town") ""
    if t ≠ "" then t else sget ac ("village") ""

/-- The flat address fields extracted by `_extract_address_components`. -/
structure AddressFields where
  street_number : String
  street_name : String
  neighborhood : String
  city : String
  postal_code : String
  state : String
  country : String
  country_code : String
deriving DecidableEq

/-- `_extract_address_components(address_components)`. -/
def extract_address_components (ac : StrMap) : AddressFields :=
  { street_number := sget ac ("house_number") "",
    street_name := sget ac ("road") "",
    neighborhood := sget ac ("neighbourhood") "",
    city := cityOf ac,
    postal_code := sget ac ("postcode") "",
    state := sget ac ("state") "",
    country := sget ac ("country") "",
    country_code := sget ac ("country_code") "" }

/-- A geopy `Location`: the display address, the `address`
sub-dictionary of the raw payload when present (defaulting to an empty
dictionary), and the string-valued top-level raw fields (`type`,
`class`, `display_name`). -/
structure NomLocation where
  address : String
  rawAddress : Option StrMap
  rawFields : StrMap
deriving DecidableEq

/-- The outcome of one `geolocator.reverse` call: returned a location
or `None`, raised `GeocoderTimedOut`, raised `GeocoderServiceError`, or
raised some other exception (uncaught by the retry loop). -/
inductive GeoOutcome where
  | success (loc : Option NomLocation)
  | timeout
  | svcError (msg : String)
  | fault (msg : String)

/-- The observable behaviour of `_reverse_geocode_with_retry`: how many
provider calls were made, how many `time.sleep(1)` units elapsed, and
the outcome (`.error` models an exception propagating out of the
loop). -/
structure RetryTrace where
  calls : ℕ
  sleeps : ℕ
  result : Except String (Option NomLocation)

/-- The `for attempt in range(max_retries)` loop of
`_reverse_geocode_with_retry`, with `fuel = max_retries - attempt`
remaining iterations: a timeout retries after a 1-unit sleep while
`attempt < max_retries - 1` (i.e. while more than one iteration of fuel
remains), a service error returns `None` at once, and exhausting the
loop returns `None`. -/
def reverseGeocodeGo (outcomes : ℕ → GeoOutcome) : ℕ → ℕ → ℕ → ℕ → RetryTrace
  | 0, _, calls, sleeps => ⟨calls, sleeps, .ok none⟩
  | fuel + 1, attempt, calls, sleeps =>
    match outcomes attempt with
    | .success loc => ⟨calls + 1, sleeps, .ok loc⟩
    | .timeout =>
      if 0 < fuel then reverseGeocodeGo outcomes fuel (attempt + 1) (calls + 1) (sleeps + 1)
      else ⟨calls + 1, sleeps, .ok none⟩
    | .svcError _ => ⟨calls + 1, sleeps, .ok none⟩
    | .fault m => ⟨calls + 1, sleeps, .error m⟩

/-- `_reverse_geocode_with_retry(latitude, longitude, max_retries)`,
driven by the sequence of provider outcomes. -/
def reverse_geocode_with_retry (outcomes : ℕ → GeoOutcome) (maxRetries : ℕ) : RetryTrace :=
  reverseGeocodeGo outcomes maxRetries 0 0 0

/-- The result dictionary of `get_address_from_coordinates`: the
success record with its components, or the failure record carrying an
error string. -/
inductive GeoResult where
  | ok (full_address : String) (latitude longitude : Option ℚ)
       (fields : AddressFields) (place : PlaceTypeInfo)
  | fail (error : String)
deriving DecidableEq

/-- `get_address_from_coordinates(latitude, longitude)`: run the retry
helper; a location yields the merged component/place-type record, a
`None` result yields the no-address failure, and a propagated
exception is caught by the outer handler. -/
def get_address_from_coordinates (outcomes : ℕ → GeoOutcome)
    (latitude longitude : Option ℚ) : GeoResult :=
  match (reverse_geocode_with_retry outcomes 3).result with
  | .error e => .fail ("Erreur lors du géocodage: " ++ e)
  | .ok none => .fail ("Aucune adresse trouvée pour ces coordonnées")
  | .ok (some loc) =>
    let addressComponents :=
      match loc.rawAddress with
      | some m => m
      | none => []
    .ok loc.address latitude longitude
      (extract_address_components addressComponents)
      (determine_place_type addressComponents loc.rawFields)

/-- The `place_type` field of the `location` record returned by the
`/extract-location` handler, when the response carries one: the handler
builds a location record only when GPS extraction reported coordinates
and the geocoding client succeeded, copying the place_type of the
client result (present on every success record, so the handler default
"unknown" is never used there). -/
def extract_location_place_type (gps : GpsResult) (outcomes : ℕ → GeoOutcome) :
    Option String :=
  match gps with
  | .notFound _ => none
  | .found lat lon =>
    match get_address_from_coordinates outcomes lat lon with
    | .fail _ => none
    | .ok _ _ _ _ place => some place.place_type

/-- The closed set of place types named by the specification. -/
def place_type_values : List String :=
  ["restaurant", "hotel", "magasin", "attraction", "service", "unknown"]

/-! ### Vision-guess sanitizer (src/routes/image_analysis.py)

`json.loads` returns Python values modelled by `JVal`; the analyzer
manipulates the parsed top-level dictionary with `setdefault`,
`len`, `extend` and slicing, each of which can raise on a value of the
wrong shape — every such raise is caught by the surrounding `try` and
mapped to the fixed fallback record. -/

/-- A Python value as produced by `json.loads`. -/
inductive JVal where
  | str (s : String)
  | int (n : ℤ)
  | num (q : ℚ)
  | bool (b : Bool)
  | null
  | arr (xs : List JVal)
  | obj (kvs : List (String × JVal))

/-- A parsed top-level JSON object / the analyzer result dictionary. -/
abbrev JDict := List (String × JVal)

/-- Dict assignment `d[k] = v`: overwrite in place or append. -/
def dictSet (d : JDict) (k : String) (v : JVal) : JDict :=
  if (alookup d k).isSome then
    d.map (fun p => if p.1 = k then (k, v) else p)
  else d ++ [(k, v)]

/-- `d.setdefault(k, v)`. -/
def setdefault (d : JDict) (k : String) (v : JVal) : JDict :=
  if (alookup d k).isSome then d else d ++ [(k, v)]

/-- Python `len(v)`: defined on strings, lists and dicts, a
`TypeError` otherwise. -/
def pyLen (v : JVal) : Except String ℕ :=
  match v with
  | .str s => .ok s.length
  | .arr xs => .ok xs.length
  | .obj kvs => .ok kvs.length
  | _ => .error ("TypeError: object has no len()")

/-- The default table applied by the `result.setdefault(...)` block,
in source order. -/
def defaultTable : JDict :=
  [("businessName", .str ("Lieu détecté")),
   ("businessType", .str ("Expérience")),
   ("address", .str ("Localisation détectée")),
   ("category", .str ("Expérience/Service")),
   ("icon", .str ("📍")),
   ("suggestedRating", .int 4),
   ("suggestedReview", .str ("")),
   ("positiveSuggestions", .arr [.str ("sympa"), .str ("correct"), .str ("pas mal")]),
   ("negativeSuggestions", .arr [.str ("bof"), .str ("moyen"), .str ("cher")]),
   ("confidence", .num (4 / 5))]

/-- The chain of `result.setdefault(key, default)` calls. -/
def applyDefaults (kvs : JDict) : JDict :=
  defaultTable.foldl (fun d p => setdefault d p.1 p.2) kvs

/-- The fixed filler for short positive-suggestion lists. -/
def fillerPositive : List String := ["sympa", "correct", "pas mal"]

/-- The fixed filler for short negative-suggestion lists. -/
def fillerNegative : List String := ["bof", "moyen", "cher"]

/-- The exactly-3-suggestions block for one key: pad a short list from
the filler (`extend` is a list method — `AttributeError` on any other
value), truncate a long one with `[:3]` (defined on lists and strings,
a `TypeError` on a dict), and leave a length-3 value untouched. -/
def fixSuggestions (d : JDict) (key : String) (filler : List String) :
    Except String JDict :=
  match alookup d key with
  | none => .error ("KeyError: " ++ key)
  | some v =>
    match pyLen v with
    | .error e => .error e
    | .ok n =>
      if n < 3 then
        match v with
        | .arr xs => .ok (dictSet d key (.arr (xs ++ (filler.take (3 - n)).map JVal.str)))
        | _ => .error ("AttributeError: object has no attribute extend")
      else if n > 3 then
        match v with
        | .arr xs => .ok (dictSet d key (.arr (xs.take 3)))
        | .str s => .ok (dictSet d key (.str (String.mk (s.data.take 3))))
        | _ => .error ("TypeError: unhashable type: slice")
      else .ok d

/-- The whole validation-and-defaulting block applied to the parsed
reply: `setdefault` requires a dict (an `AttributeError` on any other
parse result), then the defaults and the two suggestion fixups run in
source order inside the same `try`. -/
def validateResult (v : JVal) : Except String JDict :=
  match v with
  | .obj kvs =>
    let d := applyDefaults kvs
    match fixSuggestions d ("positiveSuggestions") fillerPositive with
    | .error e => .error e
    | .ok d2 =>
      match fixSuggestions d2 ("negativeSuggestions") fillerNegative with
      | .error e => .error e
      | .ok d3 => .ok d3
  | _ => .error ("AttributeError: object has no attribute setdefault")

/-- A raised `json.JSONDecodeError`, whose `str()` rendering is always
`msg: line L column C (char P)`. -/
structure JsonDecodeError where
  msg : String
  lineno : ℕ
  colno : ℕ
  pos : ℕ

/-- `str(e)` on a `JSONDecodeError`. -/
def JsonDecodeError.render (e : JsonDecodeError) : String :=
  e.msg ++ ": line (" ++ toString e.lineno ++ ") column (" ++ toString e.colno
    ++ ") (char (" ++ toString e.pos ++ "))"

/-- List-level string prefix test. -/
def listIsPrefixOf : List Char → List Char → Bool
  | [], _ => true
  | _ :: _, [] => false
  | a :: as, b :: bs => a == b && listIsPrefixOf as bs

/-- `s.startswith(p)`. -/
def pyStartsWith (s p : String) : Bool :=
  listIsPrefixOf p.data s.data

/-- Python `s[n:]`. -/
def strDrop (s : String) (n : ℕ) : String :=
  String.mk (s.data.drop n)

/-- Python `s[:-n]` for positive `n` (empty when `n` exceeds the
length). -/
def strDropRight (s : String) (n : ℕ) : String :=
  String.mk (s.data.take (s.data.length - n))

/-- The reply-cleaning step of `analyze_image_with_gpt4_vision`:
`strip()` the content, then unconditionally remove 7 leading and 3
trailing characters after a ```` ```json ```` opener, or 3 and 3 after
a bare ```` ``` ```` opener (`s[7:-3]` / `s[3:-3]`). -/
def cleanResponseText (content : String) : String :=
  let t := pyStrip content
  if pyStartsWith t ("```json") then strDropRight (strDrop t 7) 3
  else if pyStartsWith t ("```") then strDropRight (strDrop t 3) 3
  else t

/-- The fixed fallback record of the analyzer exception handler, with
`confidence` forced to `0.5` and `error` set to `str(e)`. -/
def fallbackAnalysis (e : String) : JDict :=
  [("businessName", .str ("Lieu détecté")),
   ("businessType", .str ("Expérience")),
   ("address", .str ("Localisation analysée par IA")),
   ("category", .str ("Expérience/Service")),
   ("icon", .str ("📍")),
   ("suggestedRating", .int 4),
   ("suggestedReview", .str ("")),
   ("positiveSuggestions", .arr [.str ("sympa"), .str ("correct"), .str ("pas mal")]),
   ("negativeSuggestions", .arr [.str ("bof"), .str ("moyen"), .str ("cher")]),
   ("confidence", .num (1 / 2)),
   ("error", .str e)]

/-- `analyze_image_with_gpt4_vision(image_data)`: the vision call
either raises (`call = .error msg`) or returns the reply text; the
cleaned text is parsed by the `json.loads` oracle `parse`; any raise in
the call, the parse or the validation block is caught and mapped to the
fallback record. -/
def analyze_image_with_gpt4_vision
    (parse : String → Except JsonDecodeError JVal)
    (call : Except String String) : JDict :=
  match call with
  | .error e => fallbackAnalysis e
  | .ok content =>
    match parse (cleanResponseText content) with
    | .error e => fallbackAnalysis e.render
    | .ok v =>
      match validateResult v with
      | .error e => fallbackAnalysis e
      | .ok d => d

/-- The `/analyze-image` handler over a JSON body (`none` models a
missing/empty JSON payload): 400 when the body is falsy or has no
`image` key, 500 when the `image` value is not a string (the comma
membership test on it raises, caught by the route handler), and
otherwise a 200 response wrapping the analyzer record with
`success: True`. -/
def analyze_image (parse : String → Except JsonDecodeError JVal)
    (call : Except String String) (body : Option JDict) : ℕ × JDict :=
  match body with
  | none => (400, [("error", .str ("Image data required"))])
  | some data =>
    if data.isEmpty then (400, [("error", .str ("Image data required"))])
    else
      match alookup data ("image") with
      | none => (400, [("error", .str ("Image data required"))])
      | some (.str _) =>
        (200, [("success", .bool true),
               ("analysis", .obj (analyze_image_with_gpt4_vision parse call))])
      | some _ =>
        (500, [("success", .bool false),
               ("error", .str ("argument of type is not iterable"))])

/-! ### Helper lemmas -/

/-- A string with non-empty character data is not the empty string. -/
theorem append_ne_empty_left (s t : String) (h : s.data ≠ []) : s ++ t ≠ "" :=
  fun he => h (List.append_eq_nil.mp (congrArg String.data he)).1

/-- A lookup hit returns one of the stored values. -/
theorem alookup_mem_values {α : Type} (l : List (String × α)) (k : String) (v : α)
    (h : alookup l k = some v) : v ∈ l.map Prod.snd := by
  induction l with
  | nil => simp [alookup] at h
  | cons p t ih =>
    by_cases hp : p.1 = k
    · simp [alookup, hp] at h
      simp [h]
    · simp [alookup, hp] at h
      simp [ih h]

/-- The key of any member of an association list is found by lookup. -/
theorem alookup_isSome_of_mem {α : Type} (l : List (String × α)) (p : String × α)
    (h : p ∈ l) : (alookup l p.1).isSome := by
  induction l with
  | nil => simp at h
  | cons q t ih =>
    by_cases hq : q.1 = p.1
    · simp [alookup, hq]
    · rcases List.mem_cons.mp h with h1 | h1
      · subst h1
        simp at hq
      · simp [alookup, hq, ih h1]

/-! ### C1 -/

/-- C1: when degrees, minutes and seconds are all present and numeric
and the hemisphere reference is given, `_dms_to_decimal` returns
`degrees + minutes/60 + seconds/3600`, negated exactly when the
reference is "S" or "W"; `convert(40, 30, 0, N) = 40.5` and
`convert(40, 30, 0, S) = -40.5`; a missing or non-numeric component
yields the unconvertible signal `none` rather than a raise. -/
theorem dms_to_decimal_correct :
    (∀ (d m s : ℚ) (rest : List (Option ℚ)) (r : String),
        dms_to_decimal (.seq (some d :: some m :: some s :: rest)) (.str r)
          = some (if r = "S" ∨ r = "W" then -(d + m / 60 + s / 3600)
                  else d + m / 60 + s / 3600))
    ∧ dms_to_decimal (.seq [some 40, some 30, some 0]) (.str ("N")) = some (81 / 2)
    ∧ dms_to_decimal (.seq [some 40, some 30, some 0]) (.str ("S")) = some (-(81 / 2))
    ∧ (∀ (xs : List (Option ℚ)) (ref : GpsVal),
        xs.length < 3 ∨ none ∈ xs.take 3 → dms_to_decimal (.seq xs) ref = none) := by
  refine ⟨?_, ?_, ?_, ?_⟩
  · intro d m s rest r
    by_cases h : r = "S" ∨ r = "W"
    · have hsw : isSouthWest (.str r) = true := by
        rcases h with h | h <;> simp [isSouthWest, h]
      simp [dms_to_decimal, floatAtIndex, hsw, h]
    · have hsw : isSouthWest (.str r) = false := by
        simp only [isSouthWest, Bool.or_eq_false_iff, beq_eq_false_iff_ne]
        push_neg at h
        exact ⟨h.1, h.2⟩
      simp [dms_to_decimal, floatAtIndex, hsw, h]
  · norm_num [dms_to_decimal, floatAtIndex, isSouthWest]
    decide
  · norm_num [dms_to_decimal, floatAtIndex, isSouthWest]
  · intro xs ref h
    rcases xs with _ | ⟨a, _ | ⟨b, _ | ⟨c, t⟩⟩⟩
    · rfl
    · cases a <;> rfl
    · cases a <;> cases b <;> rfl
    · rcases h with h | h
      · simp at h
        omega
      · have h3 : none = a ∨ none = b ∨ none = c := by simpa using h
        rcases h3 with h3 | h3 | h3
        · subst h3; cases b <;> cases c <;> rfl
        · subst h3; cases a <;> cases c <;> rfl
        · subst h3; cases a <;> cases b <;> rfl

/-- C1 witness: a DMS sequence with a non-numeric minutes component. -/
theorem dms_to_decimal_correct_witness :
    (([some (40 : ℚ), none, some 0] : List (Option ℚ)).length < 3
      ∨ none ∈ ([some (40 : ℚ), none, some 0] : List (Option ℚ)).take 3)
    ∧ dms_to_decimal (.seq [some 40, none, some 0]) (.str ("N")) = none :=
  ⟨by decide, dms_to_decimal_correct.2.2.2 [some 40, none, some 0] (.str ("N")) (by decide)⟩

/-! ### C2 -/

/-- C2 is violated by the code: with no PIL EXIF data and all four
exifread GPS tags present but unconvertible (empty values lists),
`extract_gps_from_image` returns a has_gps-true record whose latitude
and longitude are both `None`, contradicting the claim (and the
docstring of the function, which declares float coordinates). -/
theorem extract_gps_found_with_none_coordinates :
    extract_gps_from_image
        ⟨.ok none,
         .ok ⟨some (.ratios []), some (.ascii ("N")),
              some (.ratios []), some (.ascii ("E"))⟩⟩
      = .found none none := by rfl

/-! ### C3 -/

/-- C3: whenever strategy A (the PIL EXIF dictionary) yields a usable
coordinate, its result is returned and strategy B (exifread) never
influences the outcome; strategy B supplies the result exactly when
strategy A yields no usable coordinate (no metadata, no GPS sub-block,
or conversion failure). -/
theorem strategyA_priority (pil : Option ExifData) :
    (∀ lat lon : ℚ, strategyA pil = some (lat, lon) →
       ∀ ex : Except String BTags,
         extract_gps_from_image ⟨.ok pil, ex⟩ = .found (some lat) (some lon))
    ∧ (strategyA pil = none →
       ∀ tags : BTags, extract_gps_from_image ⟨.ok pil, .ok tags⟩ = strategyB tags) := by
  constructor
  · intro lat lon h ex
    simp [extract_gps_from_image, h]
  · intro h tags
    simp [extract_gps_from_image, h]

/-- C3 witness: a concrete EXIF dictionary that strategy A converts,
returned unchanged whatever the exifread outcome is. -/
theorem strategyA_priority_witness :
    strategyA (some [("GPSInfo",
        [("GPSLatitude", .seq [some 40, some 30, some 0]), ("GPSLatitudeRef", .str ("N")),
         ("GPSLongitude", .seq [some 2, some 0, some 0]), ("GPSLongitudeRef", .str ("E"))])])
      = some (81 / 2, 2)
    ∧ extract_gps_from_image
        ⟨.ok (some [("GPSInfo",
            [("GPSLatitude", .seq [some 40, some 30, some 0]), ("GPSLatitudeRef", .str ("N")),
             ("GPSLongitude", .seq [some 2, some 0, some 0]), ("GPSLongitudeRef", .str ("E"))])]),
         .error ("boom")⟩
      = .found (some (81 / 2)) (some 2) := by
  have h : strategyA (some [("GPSInfo",
      [("GPSLatitude", .seq [some 40, some 30, some 0]), ("GPSLatitudeRef", .str ("N")),
       ("GPSLongitude", .seq [some 2, some 0, some 0]), ("GPSLongitudeRef", .str ("E"))])])
      = some (81 / 2, 2) := by
    simp +decide [strategyA, collectGpsInfo, gpsInsert, convert_gps_to_decimal, alookup,
      dms_to_decimal, floatAtIndex, isSouthWest, GpsVal.truthy]
    norm_num
  exact ⟨h, (strategyA_priority _).1 (81 / 2) 2 h (.error ("boom"))⟩

/-! ### C4 -/

/-- Shape of every strategy-B result: a found-record or the fixed
no-GPS-data message. -/
theorem strategyB_shape (tags : BTags) :
    (∃ la lo, strategyB tags = .found la lo)
      ∨ strategyB tags = .notFound ("Aucune donnée GPS trouvée dans l\x27image") := by
  obtain ⟨l, lr, lo, lor⟩ := tags
  cases l <;> cases lr <;> cases lo <;> cases lor <;>
    first
      | exact Or.inr rfl
      | exact Or.inl ⟨_, _, rfl⟩

/-- C4: `extract_gps_from_image` is a total function of the decoding
outcomes (the surrounding try/except never lets a fault escape): every
result is either a found-record or a has_gps-false record with a
non-empty reason, and any raise from the decoding libraries is mapped
to a has_gps-false record carrying the extraction-error message. -/
theorem extract_gps_never_raises (env : GpsEnv) :
    ((∃ lat lon, extract_gps_from_image env = .found lat lon)
      ∨ (∃ err, extract_gps_from_image env = .notFound err ∧ err ≠ ""))
    ∧ (∀ e, env.pil = .error e →
         extract_gps_from_image env = .notFound ("Erreur lors de l\x27extraction GPS: " ++ e)) := by
  obtain ⟨pil, exifr⟩ := env
  constructor
  · cases pil with
    | error e =>
      exact Or.inr ⟨_, rfl, append_ne_empty_left _ _ (by decide)⟩
    | ok exifOpt =>
      cases h : strategyA exifOpt with
      | some p =>
        exact Or.inl ⟨some p.1, some p.2, by simp [extract_gps_from_image, h]⟩
      | none =>
        cases exifr with
        | error e =>
          refine Or.inr ⟨"Erreur lors de l\x27extraction GPS: " ++ e,
            by simp [extract_gps_from_image, h], ?_⟩
          exact append_ne_empty_left _ _ (by decide)
        | ok tags =>
          rcases strategyB_shape tags with ⟨la, lo, hB⟩ | hB
          · exact Or.inl ⟨la, lo, by simpa [extract_gps_from_image, h] using hB⟩
          · exact Or.inr ⟨_, by simpa [extract_gps_from_image, h] using hB, by decide⟩
  · intro e he
    simp only [Except.error.injEq] at he
    simp [extract_gps_from_image, he]

/-- C4 witness: a raise inside `Image.open` becomes an error record. -/
theorem extract_gps_never_raises_witness :
    (GpsEnv.mk (.error ("bad image")) (.ok ⟨none, none, none, none⟩)).pil = .error ("bad image")
    ∧ extract_gps_from_image (GpsEnv.mk (.error ("bad image")) (.ok ⟨none, none, none, none⟩))
        = .notFound ("Erreur lors de l\x27extraction GPS: " ++ "bad image") :=
  ⟨rfl, (extract_gps_never_raises _).2 ("bad image") rfl⟩

/-! ### C5 and C6 -/

/-- Every value stored in the category table is a specified place
type. -/
theorem type_mapping_values_mem (k v : String)
    (h : alookup type_mapping k = some v) : v ∈ place_type_values := by
  have hv := alookup_mem_values _ _ _ h
  have hsub : ∀ x ∈ type_mapping.map Prod.snd, x ∈ place_type_values := by decide
  exact hsub v hv

/-- The base lookup lands in the closed set. -/
theorem basePlaceType_mem (raw : StrMap) : basePlaceType raw ∈ place_type_values := by
  unfold basePlaceType
  cases h1 : alookup type_mapping (sget raw ("type") ("")) with
  | some v => exact type_mapping_values_mem _ _ h1
  | none =>
    cases h2 : alookup type_mapping (sget raw ("class") ("")) with
    | some v => exact type_mapping_values_mem _ _ h2
    | none => decide

/-- The amenity override preserves membership in the closed set. -/
theorem amenityOverride_mem (am base : String) (hb : base ∈ place_type_values) :
    amenityOverride am base ∈ place_type_values := by
  unfold amenityOverride
  split_ifs <;> first | exact hb | decide

/-- The place-type normalizer lands in the closed set. -/
theorem determine_place_type_mem (addr raw : StrMap) :
    (determine_place_type addr raw).place_type ∈ place_type_values :=
  amenityOverride_mem _ _ (basePlaceType_mem raw)

/-- C5: the place type produced by the normalizer — and hence the
place_type of every success record of the geocoding client and of
every location record emitted by the /extract-location handler — is an
element of the fixed closed set
restaurant / hotel / magasin / attraction / service / unknown. -/
theorem place_type_closed_set (addr raw : StrMap) (outcomes : ℕ → GeoOutcome)
    (gps : GpsResult) (lat lon : Option ℚ) :
    (determine_place_type addr raw).place_type ∈ place_type_values
    ∧ (∀ fa la lo f p, get_address_from_coordinates outcomes lat lon = .ok fa la lo f p →
         p.place_type ∈ place_type_values)
    ∧ (∀ pt, extract_location_place_type gps outcomes = some pt →
         pt ∈ place_type_values) := by
  have hclient : ∀ la0 lo0 fa la lo f p,
      get_address_from_coordinates outcomes la0 lo0 = .ok fa la lo f p →
      p.place_type ∈ place_type_values := by
    intro la0 lo0 fa la lo f p h
    unfold get_address_from_coordinates at h
    cases hr : (reverse_geocode_with_retry outcomes 3).result with
    | error e => rw [hr] at h; simp at h
    | ok locOpt =>
      rw [hr] at h
      cases locOpt with
      | none => simp at h
      | some loc =>
        simp only [GeoResult.ok.injEq] at h
        obtain ⟨-, -, -, -, hp⟩ := h
        rw [← hp]
        exact determine_place_type_mem _ _
  refine ⟨determine_place_type_mem addr raw, hclient lat lon, ?_⟩
  intro pt h
  cases gps with
  | notFound e => simp [extract_location_place_type] at h
  | found la lo =>
    simp only [extract_location_place_type] at h
    cases hr : get_address_from_coordinates outcomes la lo with
    | fail e => rw [hr] at h; simp at h
    | ok fa la2 lo2 f p =>
      rw [hr] at h
      simp only [Option.some.injEq] at h
      rw [← h]
      exact hclient la lo _ _ _ _ _ hr

/-- C5 witness: a successful geocode of an unclassified payload yields
the place type unknown, a member of the closed set. -/
theorem place_type_closed_set_witness :
    extract_location_place_type (.found none none)
        (fun _ => .success (some ⟨("somewhere"), none, []⟩))
      = some ("unknown")
    ∧ "unknown" ∈ place_type_values :=
  ⟨rfl, (place_type_closed_set [] [] (fun _ => .success (some ⟨("somewhere"), none, []⟩))
      (.found none none) none none).2.2 ("unknown") rfl⟩

/-- The amenity override written as the priority chain of the
specification: the truthiness guard of the source is redundant because
the empty string is in none of the three amenity lists. -/
theorem amenityOverride_eq_chain (am base : String) :
    amenityOverride am base =
      (if am = "restaurant" ∨ am = "cafe" ∨ am = "fast_food" then "restaurant"
       else if am = "hotel" ∨ am = "motel" then "hotel"
       else if am = "shop" ∨ am = "supermarket" then "magasin"
       else base) := by
  unfold amenityOverride
  by_cases h0 : am = ""
  · rw [h0]
    rw [if_neg (by decide : ¬("" : String) ≠ "")]
    rw [if_neg (by decide : ¬(("" : String) = "restaurant" ∨ ("" : String) = "cafe"
        ∨ ("" : String) = "fast_food"))]
    rw [if_neg (by decide : ¬(("" : String) = "hotel" ∨ ("" : String) = "motel"))]
    rw [if_neg (by decide : ¬(("" : String) = "shop" ∨ ("" : String) = "supermarket"))]
  · rw [if_pos h0]

/-- C6: the place type is resolved in priority order — the raw type
through the category table first, the raw class only on a miss, a
restaurant/cafe/fast_food, hotel/motel or shop/supermarket amenity
overriding both lookups, and unknown otherwise; in particular a raw
type restaurant yields restaurant, and an unset type with amenity
hotel yields hotel. -/
theorem determine_place_type_priority (addr raw : StrMap) :
    ((determine_place_type addr raw).place_type =
      (let base :=
        match alookup type_mapping (sget raw ("type") ("")) with
        | some v => v
        | none =>
          match alookup type_mapping (sget raw ("class") ("")) with
          | some v => v
          | none => "unknown"
       let am := sget addr ("amenity") ("")
       if am = "restaurant" ∨ am = "cafe" ∨ am = "fast_food" then "restaurant"
       else if am = "hotel" ∨ am = "motel" then "hotel"
       else if am = "shop" ∨ am = "supermarket" then "magasin"
       else base))
    ∧ (determine_place_type [] [("type", "restaurant")]).place_type = "restaurant"
    ∧ (determine_place_type [("amenity", "hotel")] []).place_type = "hotel" := by
  refine ⟨?_, by decide, by decide⟩
  show amenityOverride (sget addr ("amenity") ("")) (basePlaceType raw) = _
  exact amenityOverride_eq_chain _ _

/-! ### C7 -/

/-- The retry loop makes at most one provider call per unit of
remaining fuel. -/
theorem reverseGeocodeGo_calls_le (outcomes : ℕ → GeoOutcome)
    (fuel attempt calls sleeps : ℕ) :
    (reverseGeocodeGo outcomes fuel attempt calls sleeps).calls ≤ calls + fuel := by
  induction fuel generalizing attempt calls sleeps with
  | zero => simp [reverseGeocodeGo]
  | succ f ih =>
    simp only [reverseGeocodeGo]
    cases outcomes attempt with
    | success loc =>
      show calls + 1 ≤ calls + (f + 1)
      omega
    | timeout =>
      show (if 0 < f then reverseGeocodeGo outcomes f (attempt + 1) (calls + 1) (sleeps + 1)
            else ⟨calls + 1, sleeps, .ok none⟩).calls ≤ calls + (f + 1)
      by_cases hf : 0 < f
      · rw [if_pos hf]
        have h2 := ih (attempt + 1) (calls + 1) (sleeps + 1)
        omega
      · rw [if_neg hf]
        show calls + 1 ≤ calls + (f + 1)
        omega
    | svcError m =>
      show calls + 1 ≤ calls + (f + 1)
      omega
    | fault m =>
      show calls + 1 ≤ calls + (f + 1)
      omega

/-- With fuel remaining, the retry loop makes at least one further
provider call and never loses recorded sleeps. -/
theorem reverseGeocodeGo_ge (outcomes : ℕ → GeoOutcome)
    (fuel attempt calls sleeps : ℕ) (h : 1 ≤ fuel) :
    calls + 1 ≤ (reverseGeocodeGo outcomes fuel attempt calls sleeps).calls
    ∧ sleeps ≤ (reverseGeocodeGo outcomes fuel attempt calls sleeps).sleeps := by
  induction fuel generalizing attempt calls sleeps with
  | zero => omega
  | succ f ih =>
    simp only [reverseGeocodeGo]
    cases outcomes attempt with
    | success loc =>
      exact ⟨Nat.le_refl _, Nat.le_refl _⟩
    | timeout =>
      show calls + 1 ≤ (if 0 < f then reverseGeocodeGo outcomes f (attempt + 1) (calls + 1) (sleeps + 1)
            else ⟨calls + 1, sleeps, .ok none⟩).calls
        ∧ sleeps ≤ (if 0 < f then reverseGeocodeGo outcomes f (attempt + 1) (calls + 1) (sleeps + 1)
            else ⟨calls + 1, sleeps, .ok none⟩).sleeps
      by_cases hf : 0 < f
      · rw [if_pos hf]
        have h2 := ih (attempt + 1) (calls + 1) (sleeps + 1) hf
        omega
      · rw [if_neg hf]
        exact ⟨Nat.le_refl _, Nat.le_refl _⟩
    | svcError m =>
      exact ⟨Nat.le_refl _, Nat.le_refl _⟩
    | fault m =>
      exact ⟨Nat.le_refl _, Nat.le_refl _⟩

/-- C7: the reverse-geocoding client issues at most 3 provider
attempts; a timeout on the first attempt is followed by a 1-unit sleep
and a retry; two timeouts followed by a success yield the success
after 3 calls and 2 sleeps; three consecutive timeouts yield a
no-location outcome (a returned `None`, not a raise); and a
non-timeout service error yields a no-location outcome after a single
call with no sleep. -/
theorem reverse_geocode_retry_spec (outcomes : ℕ → GeoOutcome) :
    (reverse_geocode_with_retry outcomes 3).calls ≤ 3
    ∧ (outcomes 0 = .timeout → outcomes 1 = .timeout →
        ∀ loc, outcomes 2 = .success loc →
          reverse_geocode_with_retry outcomes 3 = ⟨3, 2, .ok loc⟩)
    ∧ (outcomes 0 = .timeout → outcomes 1 = .timeout → outcomes 2 = .timeout →
        reverse_geocode_with_retry outcomes 3 = ⟨3, 2, .ok none⟩)
    ∧ (∀ m, outcomes 0 = .svcError m →
        reverse_geocode_with_retry outcomes 3 = ⟨1, 0, .ok none⟩)
    ∧ (outcomes 0 = .timeout →
        2 ≤ (reverse_geocode_with_retry outcomes 3).calls
        ∧ 1 ≤ (reverse_geocode_with_retry outcomes 3).sleeps) := by
  refine ⟨reverseGeocodeGo_calls_le outcomes 3 0 0 0, ?_, ?_, ?_, ?_⟩
  · intro h0 h1 loc h2
    simp [reverse_geocode_with_retry, reverseGeocodeGo, h0, h1, h2]
  · intro h0 h1 h2
    simp [reverse_geocode_with_retry, reverseGeocodeGo, h0, h1, h2]
  · intro m h0
    simp [reverse_geocode_with_retry, reverseGeocodeGo, h0]
  · intro h0
    have hgo : reverse_geocode_with_retry outcomes 3
        = reverseGeocodeGo outcomes 2 1 1 1 := by
      simp [reverse_geocode_with_retry, reverseGeocodeGo, h0]
    rw [hgo]
    have := reverseGeocodeGo_ge outcomes 2 1 1 1 (by omega)
    omega

/-- C7 witness: three consecutive timeouts. -/
theorem reverse_geocode_retry_spec_witness :
    (fun _ : ℕ => GeoOutcome.timeout) 0 = GeoOutcome.timeout
    ∧ reverse_geocode_with_retry (fun _ => .timeout) 3 = ⟨3, 2, .ok none⟩ :=
  ⟨rfl, (reverse_geocode_retry_spec (fun _ => .timeout)).2.2.1 rfl rfl rfl⟩

/-! ### Dictionary lemmas for the sanitizer -/

/-- Lookup through an append scans the left list first. -/
theorem alookup_append {α : Type} (l1 l2 : List (String × α)) (k : String) :
    alookup (l1 ++ l2) k =
      match alookup l1 k with
      | some v => some v
      | none => alookup l2 k := by
  induction l1 with
  | nil => simp [alookup]
  | cons p t ih =>
    by_cases hp : p.1 = k
    · simp [alookup, hp]
    · simp [alookup, hp, ih]

/-- Lookup after a `setdefault`. -/
theorem setdefault_lookup (d : JDict) (a : String) (b : JVal) (k : String) :
    alookup (setdefault d a b) k =
      match alookup d k with
      | some w => some w
      | none => if a = k then some b else none := by
  unfold setdefault
  by_cases hp : (alookup d a).isSome
  · rw [if_pos hp]
    cases hk : alookup d k with
    | some w => simp [hk]
    | none =>
      by_cases hak : a = k
      · subst hak
        rw [hk] at hp
        simp at hp
      · simp [hk, hak]
  · rw [if_neg hp]
    rw [alookup_append]
    cases hk : alookup d k with
    | some w => simp
    | none => simp [alookup]

/-- Lookup after a chain of `setdefault` calls: an existing entry
wins, otherwise the first table entry with the key applies. -/
theorem foldl_setdefault_lookup (l d : JDict) (k : String) :
    alookup (l.foldl (fun acc p => setdefault acc p.1 p.2) d) k =
      match alookup d k with
      | some v => some v
      | none => alookup l k := by
  induction l generalizing d with
  | nil => cases hd : alookup d k <;> simp [alookup, hd]
  | cons q t ih =>
    simp only [List.foldl_cons]
    rw [ih, setdefault_lookup]
    by_cases hq : q.1 = k
    · cases hd : alookup d k <;> simp [alookup, hq, hd]
    · cases hd : alookup d k <;> simp [alookup, hq, hd]

/-- Lookup after the default-table pass. -/
theorem applyDefaults_lookup (kvs : JDict) (k : String) :
    alookup (applyDefaults kvs) k =
      match alookup kvs k with
      | some v => some v
      | none => alookup defaultTable k :=
  foldl_setdefault_lookup defaultTable kvs k

/-- Lookup of the assigned key after an in-place overwrite pass. -/
theorem alookup_map_set (d : JDict) (k : String) (v : JVal) :
    alookup (d.map (fun p => if p.1 = k then (k, v) else p)) k =
      if (alookup d k).isSome then some v else none := by
  induction d with
  | nil => simp [alookup]
  | cons p t ih =>
    by_cases hp : p.1 = k
    · simp [alookup, hp]
    · simp [alookup, hp, ih]

/-- Lookup of a different key after an in-place overwrite pass. -/
theorem alookup_map_set_other (d : JDict) (k : String) (v : JVal) (k2 : String)
    (hk : k2 ≠ k) :
    alookup (d.map (fun p => if p.1 = k then (k, v) else p)) k2 = alookup d k2 := by
  induction d with
  | nil => simp
  | cons p t ih =>
    by_cases hp : p.1 = k
    · have hne : ¬k = k2 := fun he => hk he.symm
      simp [alookup, hp, hne, ih]
    · by_cases hp2 : p.1 = k2
      · simp [alookup, hp, hp2, hk]
      · simp [alookup, hp, hp2, ih]

/-- Lookup of the assigned key after `dictSet`. -/
theorem dictSet_lookup_self (d : JDict) (k : String) (v : JVal)
    (h : (alookup d k).isSome) :
    alookup (dictSet d k v) k = some v := by
  unfold dictSet
  rw [if_pos h, alookup_map_set, if_pos h]

/-- Lookup of a different key after `dictSet`. -/
theorem dictSet_lookup_other (d : JDict) (k : String) (v : JVal) (k2 : String)
    (hk : k2 ≠ k) :
    alookup (dictSet d k v) k2 = alookup d k2 := by
  unfold dictSet
  by_cases hp : (alookup d k).isSome
  · rw [if_pos hp]
    exact alookup_map_set_other d k v k2 hk
  · rw [if_neg hp, alookup_append]
    cases hd : alookup d k2 with
    | some w => simp
    | none =>
      have hne : ¬k = k2 := fun he => hk he.symm
      simp [alookup, hne]

/-- Characterization of a successful suggestions fixup: other keys are
untouched, the key stays present, a list value afterwards has exactly
3 entries, and a 3-element list beforehand leaves the dictionary
unchanged. -/
theorem fixSuggestions_ok_spec (d d2 : JDict) (key : String) (filler : List String)
    (hfl : filler.length = 3) (h : fixSuggestions d key filler = .ok d2) :
    (∀ k, k ≠ key → alookup d2 k = alookup d k)
    ∧ (alookup d2 key).isSome
    ∧ (∀ xs, alookup d2 key = some (.arr xs) → xs.length = 3)
    ∧ (∀ xs, alookup d key = some (.arr xs) → xs.length = 3 → d2 = d) := by
  unfold fixSuggestions at h
  split at h
  · simp at h
  · rename_i v hv
    split at h
    · simp at h
    · rename_i n hn
      split at h
      · rename_i h3
        split at h
        · rename_i xs
          simp only [Except.ok.injEq] at h
          subst h
          have hlen : xs.length = n := by simp [pyLen] at hn; omega
          refine ⟨fun k hk => dictSet_lookup_other d key _ k hk, ?_, ?_, ?_⟩
          · rw [dictSet_lookup_self d key _ (by simp [hv])]
            simp
          · intro xs2 hx2
            rw [dictSet_lookup_self d key _ (by simp [hv])] at hx2
            simp only [Option.some.injEq, JVal.arr.injEq] at hx2
            rw [← hx2]
            simp [List.length_take, hfl]
            omega
          · intro xs0 h0 hlen0
            rw [hv] at h0
            simp only [Option.some.injEq, JVal.arr.injEq] at h0
            subst h0
            omega
        · simp at h
      · split at h
        · rename_i h4
          split at h
          · rename_i xs
            simp only [Except.ok.injEq] at h
            subst h
            have hlen : xs.length = n := by simp [pyLen] at hn; omega
            refine ⟨fun k hk => dictSet_lookup_other d key _ k hk, ?_, ?_, ?_⟩
            · rw [dictSet_lookup_self d key _ (by simp [hv])]
              simp
            · intro xs2 hx2
              rw [dictSet_lookup_self d key _ (by simp [hv])] at hx2
              simp only [Option.some.injEq, JVal.arr.injEq] at hx2
              rw [← hx2]
              simp [List.length_take]
              omega
            · intro xs0 h0 hlen0
              rw [hv] at h0
              simp only [Option.some.injEq, JVal.arr.injEq] at h0
              subst h0
              omega
          · rename_i s2
            simp only [Except.ok.injEq] at h
            subst h
            refine ⟨fun k hk => dictSet_lookup_other d key _ k hk, ?_, ?_, ?_⟩
            · rw [dictSet_lookup_self d key _ (by simp [hv])]
              simp
            · intro xs2 hx2
              rw [dictSet_lookup_self d key _ (by simp [hv])] at hx2
              simp at hx2
            · intro xs0 h0 hlen0
              rw [hv] at h0
              simp at h0
          · simp at h
        · simp only [Except.ok.injEq] at h
          subst h
          refine ⟨fun k hk => rfl, by simp [hv], ?_, fun xs0 h0 hlen0 => rfl⟩
          intro xs hx
          rw [hv] at hx
          simp only [Option.some.injEq] at hx
          rw [hx] at hn
          simp [pyLen] at hn
          omega

/-! ### C8 -/

/-- A rendered `JSONDecodeError` is never empty: the positional
suffix is always present. -/
theorem jsonDecodeError_render_ne_empty (e : JsonDecodeError) : e.render ≠ "" := by
  intro hcontra
  exact absurd (List.append_eq_nil.mp (congrArg String.data hcontra)).2 (by decide)

/-- C8 counterexample: a vision-call fault whose exception renders to
the empty string produces the fallback record with confidence 0.5 but
an empty error field, refuting the non-emptiness part of the claim. -/
theorem analyze_image_empty_error_counterexample :
    alookup (analyze_image_with_gpt4_vision
        (fun _ => .error ⟨("Expecting value"), 1, 1, 0⟩) (.error (""))) ("error")
      = some (.str (""))
    ∧ alookup (analyze_image_with_gpt4_vision
        (fun _ => .error ⟨("Expecting value"), 1, 1, 0⟩) (.error (""))) ("confidence")
      = some (.num (1 / 2)) :=
  ⟨rfl, rfl⟩

/-- C8 (amended): parse failures and vision-call faults never
propagate — the analyzer returns the fixed fallback record with
confidence 0.5 and error set to the description of the failure (always
non-empty for a JSON parse failure, but equal to the raw exception
text, possibly empty, for a vision-call fault), and the
/analyze-image handler still responds 200 with success true around
such a fallback. -/
theorem analyze_image_fallback_spec
    (parse : String → Except JsonDecodeError JVal) (call : Except String String) :
    (∀ m, call = .error m →
       analyze_image_with_gpt4_vision parse call = fallbackAnalysis m
       ∧ alookup (fallbackAnalysis m) ("confidence") = some (.num (1 / 2))
       ∧ alookup (fallbackAnalysis m) ("error") = some (.str m))
    ∧ (∀ c e, call = .ok c → parse (cleanResponseText c) = .error e →
       analyze_image_with_gpt4_vision parse call = fallbackAnalysis e.render
       ∧ e.render ≠ "")
    ∧ (∀ data s, ¬data.isEmpty → alookup data ("image") = some (.str s) →
       analyze_image parse call (some data)
         = (200, [("success", .bool true),
                  ("analysis", .obj (analyze_image_with_gpt4_vision parse call))])) := by
  refine ⟨?_, ?_, ?_⟩
  · intro m hm
    subst hm
    exact ⟨rfl, rfl, rfl⟩
  · intro c e hc hp
    subst hc
    exact ⟨by simp [analyze_image_with_gpt4_vision, hp], jsonDecodeError_render_ne_empty e⟩
  · intro data s hne himg
    simp [analyze_image, hne, himg]

/-- C8 witness: an unparseable reply yields the rendered decode error. -/
theorem analyze_image_fallback_spec_witness :
    ((Except.ok ("not json") : Except String String) = .ok ("not json"))
    ∧ analyze_image_with_gpt4_vision
        (fun _ => .error ⟨("Expecting value"), 1, 1, 0⟩) (.ok ("not json"))
      = fallbackAnalysis (JsonDecodeError.render ⟨("Expecting value"), 1, 1, 0⟩)
    ∧ JsonDecodeError.render ⟨("Expecting value"), 1, 1, 0⟩ ≠ "" := by
  have h := (analyze_image_fallback_spec
      (fun _ => .error ⟨("Expecting value"), 1, 1, 0⟩) (.ok ("not json"))).2.1
      ("not json") ⟨("Expecting value"), 1, 1, 0⟩ rfl rfl
  exact ⟨rfl, h.1, h.2⟩

/-! ### C9 -/

/-- C9 counterexample: a parsed reply carrying an out-of-range rating
and non-string suggestion entries is passed through by the sanitizer
(only the list length is normalized), so the returned record violates
the claimed rating bound and string typing. -/
theorem validate_result_unvalidated_counterexample :
    validateResult (.obj [("suggestedRating", .int 7),
        ("positiveSuggestions", .arr [.int 1, .int 2])])
      = .ok [("suggestedRating", .int 7),
             ("positiveSuggestions", .arr [.int 1, .int 2, .str ("sympa")]),
             ("businessName", .str ("Lieu détecté")),
             ("businessType", .str ("Expérience")),
             ("address", .str ("Localisation détectée")),
             ("category", .str ("Expérience/Service")),
             ("icon", .str ("📍")),
             ("suggestedReview", .str ("")),
             ("negativeSuggestions", .arr [.str ("bof"), .str ("moyen"), .str ("cher")]),
             ("confidence", .num (4 / 5))]
    ∧ ¬((1 : ℤ) ≤ 7 ∧ (7 : ℤ) ≤ 5) :=
  ⟨rfl, by decide⟩

/-- C9 (amended): every record returned by the sanitizer has all ten
fields present, fields absent from the parsed reply are filled from
the fixed default table, and list-valued suggestion fields have
exactly 3 entries (truncated or padded from the fixed fillers);
however suggestedRating, confidence and the types of suggestion
entries are passed through without validation. -/
theorem validate_result_spec (kvs d : JDict)
    (h : validateResult (.obj kvs) = .ok d) :
    (∀ p ∈ defaultTable, (alookup d p.1).isSome)
    ∧ (∀ p ∈ defaultTable, alookup kvs p.1 = none → alookup d p.1 = some p.2)
    ∧ (∀ xs, alookup d ("positiveSuggestions") = some (.arr xs) → xs.length = 3)
    ∧ (∀ xs, alookup d ("negativeSuggestions") = some (.arr xs) → xs.length = 3) := by
  unfold validateResult at h
  split at h
  case h_2 =>
    rename_i hne
    exact (hne kvs rfl).elim
  rename_i v2 kvs2 heq
  injection heq with heq2
  subst heq2
  dsimp only at h
  generalize hD : applyDefaults kvs = D at h
  split at h
  · simp at h
  · rename_i d2 hfp
    split at h
    · simp at h
    · rename_i d3 hfn
      simp only [Except.ok.injEq] at h
      rw [← h]
      have hP := fixSuggestions_ok_spec D d2 ("positiveSuggestions")
        fillerPositive (by decide) hfp
      have hN := fixSuggestions_ok_spec d2 d3 ("negativeSuggestions")
        fillerNegative (by decide) hfn
      have hkeys : ∀ k, k ≠ "positiveSuggestions" → k ≠ "negativeSuggestions" →
          alookup d3 k = alookup D k := fun k h1 h2 =>
        (hN.1 k h2).trans (hP.1 k h1)
      refine ⟨?_, ?_, ?_, ?_⟩
      · intro p hp
        by_cases h1 : p.1 = "positiveSuggestions"
        · rw [h1, hN.1 _ (by decide)]
          exact hP.2.1
        · by_cases h2 : p.1 = "negativeSuggestions"
          · rw [h2]
            exact hN.2.1
          · rw [hkeys _ h1 h2, ← hD, applyDefaults_lookup]
            cases hk : alookup kvs p.1 with
            | none => simpa using alookup_isSome_of_mem _ _ hp
            | some v => simp
      · intro p hp hk
        simp only [defaultTable, List.mem_cons, List.not_mem_nil, or_false] at hp
        rcases hp with rfl | rfl | rfl | rfl | rfl | rfl | rfl | rfl | rfl | rfl
        · rw [hkeys _ (by decide) (by decide), ← hD, applyDefaults_lookup, hk]; rfl
        · rw [hkeys _ (by decide) (by decide), ← hD, applyDefaults_lookup, hk]; rfl
        · rw [hkeys _ (by decide) (by decide), ← hD, applyDefaults_lookup, hk]; rfl
        · rw [hkeys _ (by decide) (by decide), ← hD, applyDefaults_lookup, hk]; rfl
        · rw [hkeys _ (by decide) (by decide), ← hD, applyDefaults_lookup, hk]; rfl
        · rw [hkeys _ (by decide) (by decide), ← hD, applyDefaults_lookup, hk]; rfl
        · rw [hkeys _ (by decide) (by decide), ← hD, applyDefaults_lookup, hk]; rfl
        · show alookup d3 ("positiveSuggestions")
              = some (JVal.arr [.str ("sympa"), .str ("correct"), .str ("pas mal")])
          have hk2 : alookup kvs ("positiveSuggestions") = none := hk
          have hd1 : alookup D ("positiveSuggestions")
              = some (JVal.arr [.str ("sympa"), .str ("correct"), .str ("pas mal")]) := by
            rw [← hD, applyDefaults_lookup, hk2]
            rfl
          have hd2 : d2 = D := hP.2.2.2 _ hd1 (by decide)
          rw [hN.1 _ (by decide), hd2, hd1]
        · show alookup d3 ("negativeSuggestions")
              = some (JVal.arr [.str ("bof"), .str ("moyen"), .str ("cher")])
          have hk2 : alookup kvs ("negativeSuggestions") = none := hk
          have hd1 : alookup D ("negativeSuggestions")
              = some (JVal.arr [.str ("bof"), .str ("moyen"), .str ("cher")]) := by
            rw [← hD, applyDefaults_lookup, hk2]
            rfl
          have hd2 : alookup d2 ("negativeSuggestions")
              = some (JVal.arr [.str ("bof"), .str ("moyen"), .str ("cher")]) := by
            rw [hP.1 _ (by decide)]
            exact hd1
          have hd3 : d3 = d2 := hN.2.2.2 _ hd2 (by decide)
          rw [hd3, hd2]
        · rw [hkeys _ (by decide) (by decide), ← hD, applyDefaults_lookup, hk]; rfl
      · intro xs hx
        rw [hN.1 _ (by decide)] at hx
        exact hP.2.2.1 xs hx
      · intro xs hx
        exact hN.2.2.1 xs hx

/-- C9 witness: a reply setting only businessName comes back fully
populated from the default table with two 3-element suggestion
lists. -/
theorem validate_result_spec_witness :
    validateResult (.obj [("businessName", .str ("Chez Luigi"))])
      = .ok [("businessName", .str ("Chez Luigi")),
             ("businessType", .str ("Expérience")),
             ("address", .str ("Localisation détectée")),
             ("category", .str ("Expérience/Service")),
             ("icon", .str ("📍")),
             ("suggestedRating", .int 4),
             ("suggestedReview", .str ("")),
             ("positiveSuggestions", .arr [.str ("sympa"), .str ("correct"), .str ("pas mal")]),
             ("negativeSuggestions", .arr [.str ("bof"), .str ("moyen"), .str ("cher")]),
             ("confidence", .num (4 / 5))]
    ∧ alookup [("businessName", JVal.str ("Chez Luigi")),
             ("businessType", JVal.str ("Expérience")),
             ("address", JVal.str ("Localisation détectée")),
             ("category", JVal.str ("Expérience/Service")),
             ("icon", JVal.str ("📍")),
             ("suggestedRating", JVal.int 4),
             ("suggestedReview", JVal.str ("")),
             ("positiveSuggestions", JVal.arr [.str ("sympa"), .str ("correct"), .str ("pas mal")]),
             ("negativeSuggestions", JVal.arr [.str ("bof"), .str ("moyen"), .str ("cher")]),
             ("confidence", JVal.num (4 / 5))] ("suggestedRating")
      = some (.int 4) := by
  refine ⟨rfl, ?_⟩
  have h := (validate_result_spec [("businessName", .str ("Chez Luigi"))] _ rfl).2.1
    ("suggestedRating", .int 4) (by simp [defaultTable]) rfl
  exact h

/-! ### C10 -/

/-- C10: a stripped reply opening with a json-tagged code fence has
exactly its first 7 and last 3 characters removed, and one opening
with a bare fence exactly its first 3 and last 3, unconditionally —
whether or not a closing fence is present, as the concrete unclosed
fence shows. -/
theorem clean_response_text_spec (s : String) :
    (pyStrip s = s →
       (pyStartsWith s ("```json") = true →
          cleanResponseText s = strDropRight (strDrop s 7) 3)
       ∧ (pyStartsWith s ("```json") = false → pyStartsWith s ("```") = true →
          cleanResponseText s = strDropRight (strDrop s 3) 3))
    ∧ cleanResponseText ("```json\x7b\x22a\x22: 1") = ("\x7b\x22a\x22") := by
  constructor
  · intro hs
    constructor
    · intro h7
      simp [cleanResponseText, hs, h7]
    · intro h7 h3
      simp [cleanResponseText, hs, h7, h3]
  · rfl

/-- C10 witness: a reply that opens a fence and never closes it. -/
theorem clean_response_text_spec_witness :
    (pyStrip ("```json\x7b\x22a\x22: 1") = ("```json\x7b\x22a\x22: 1")
      ∧ pyStartsWith ("```json\x7b\x22a\x22: 1") ("```json") = true)
    ∧ cleanResponseText ("```json\x7b\x22a\x22: 1")
      = strDropRight (strDrop ("```json\x7b\x22a\x22: 1") 7) 3 :=
  ⟨⟨rfl, rfl⟩, ((clean_response_text_spec ("```json\x7b\x22a\x22: 1")).1 rfl).1 rfl⟩
